import Mathlib

/-!
Verification of the medication dosing and quantity resolution engine.

Shallow embedding of the two core modules of the `livny_health` repository:

* the unit-conversion module (`src/frontend/src/types/patient.ts`, second part:
  `unitConversion`): `smartRound`, the `mL ↔ tsp/tbsp/fl oz` and `kg ↔ lbs`
  conversions, `convertVolume`, `getVolumeInSystem`;
* the dosing & quantity module (`src/unnamed/part_002`, `quantityCalculator`):
  the frequency catalog, `parseDosesPerAdmin`, `parseFrequencyFromDosing`,
  `getFrequencyPerDay`, `getUnitForForm`, `calculateQuantity`.

Modelling choices:

* JavaScript numbers are modelled as rationals (`ℚ`); all arithmetic in the
  source on the relevant inputs is exactly representable there.
* `Math.ceil` is `Int.ceil`; `Math.round` rounds half-way cases toward `+∞`
  (JS semantics), i.e. `⌊x + 1/2⌋`.
* `Number.isInteger q` is `q.den = 1`.
* The `formatted : string` display field of `ConversionResult` (value
  concatenated with the unit label) is not modelled: no claim concerns it,
  and it is derived from `value` and `unit` by string formatting only.
* Strings are Lean `String`s; `String.prototype.includes` is substring
  containment on the character lists, `toUpperCase` is a character-wise
  ASCII upper-casing map (`jsToUpper`).
* The JS regexes in `parseDosesPerAdmin` are modelled by deterministic
  maximal-munch scanners over the character list; for these particular
  patterns (digits, then optional whitespace, then a literal or a word
  starting with a letter) greedy matching with backtracking coincides with
  maximal munch, because every backtracking step would leave a character in
  front of a character class that cannot accept it.
-/

namespace LivnyHealth

/-! ## Unit conversion module (from `unitConversion` in `patient.ts`) -/

def ML_PER_TSP : ℚ := 5

def ML_PER_TBSP : ℚ := 15

def ML_PER_FL_OZ : ℚ := 295735 / 10000

def LBS_PER_KG : ℚ := 220462 / 100000

def KG_PER_LB : ℚ := 453592 / 1000000

inductive VolumeUnit : Type
  | mL
  | tsp
  | tbsp
  | flOz
deriving DecidableEq

inductive WeightUnit : Type
  | kg
  | lbs
deriving DecidableEq

inductive UnitSystem : Type
  | metric
  | imperial
deriving DecidableEq

/-- Structure `ConversionResult` from the source, without the derived `formatted`
display string (see the module docstring). -/
structure ConversionResult : Type where
  value : ℚ
  unit : String
deriving DecidableEq

/-- JavaScript `Math.round`: nearest integer, half-way cases toward `+∞`. -/
def jsRound (q : ℚ) : ℤ := ⌊q + 1 / 2⌋

/-- Function `smartRound` from the source: whole numbers unchanged; values `≥ 10`
rounded to 1 decimal place; everything else to 2 decimal places. -/
def smartRound (value : ℚ) : ℚ :=
  if value.den = 1 then value
  else if value ≥ 10 then (jsRound (value * 10) : ℚ) / 10
  else (jsRound (value * 100) : ℚ) / 100

def mlToTsp (mL : ℚ) : ConversionResult :=
  { value := smartRound (mL / ML_PER_TSP), unit := "tsp" }

def tspToMl (tsp : ℚ) : ConversionResult :=
  { value := smartRound (tsp * ML_PER_TSP), unit := "mL" }

def mlToTbsp (mL : ℚ) : ConversionResult :=
  { value := smartRound (mL / ML_PER_TBSP), unit := "tbsp" }

def tbspToMl (tbsp : ℚ) : ConversionResult :=
  { value := smartRound (tbsp * ML_PER_TBSP), unit := "mL" }

def mlToFlOz (mL : ℚ) : ConversionResult :=
  { value := smartRound (mL / ML_PER_FL_OZ), unit := "fl oz" }

def flOzToMl (flOz : ℚ) : ConversionResult :=
  { value := smartRound (flOz * ML_PER_FL_OZ), unit := "mL" }

def kgToLbs (kg : ℚ) : ConversionResult :=
  { value := smartRound (kg * LBS_PER_KG), unit := "lbs" }

def lbsToKg (lbs : ℚ) : ConversionResult :=
  { value := smartRound (lbs * KG_PER_LB), unit := "kg" }

/-- Function `convertVolume` from the source: convert `from` to mL, then mL to `to`. -/
def convertVolume (value : ℚ) (fromU toU : VolumeUnit) : ConversionResult :=
  let mL : ℚ :=
    match fromU with
    | .mL => value
    | .tsp => value * ML_PER_TSP
    | .tbsp => value * ML_PER_TBSP
    | .flOz => value * ML_PER_FL_OZ
  match toU with
  | .mL => { value := smartRound mL, unit := "mL" }
  | .tsp => mlToTsp mL
  | .tbsp => mlToTbsp mL
  | .flOz => mlToFlOz mL

def convertWeight (value : ℚ) (fromU toU : WeightUnit) : ConversionResult :=
  if fromU = toU then
    { value := smartRound value, unit := match toU with | .kg => "kg" | .lbs => "lbs" }
  else if fromU = .kg ∧ toU = .lbs then kgToLbs value
  else lbsToKg value

/-- Function `getVolumeInSystem` from the source: metric passes mL through smart
rounding; imperial picks tsp / tbsp / fl oz by magnitude. -/
def getVolumeInSystem (mL : ℚ) (system : UnitSystem) : ConversionResult :=
  if system = .metric then
    { value := smartRound mL, unit := "mL" }
  else
    let tbsp := mL / ML_PER_TBSP
    let flOz := mL / ML_PER_FL_OZ
    if tbsp < 3 then mlToTsp mL
    else if flOz < 4 then mlToTbsp mL
    else mlToFlOz mL

def getWeightInSystem (kg : ℚ) (system : UnitSystem) : ConversionResult :=
  if system = .metric then { value := smartRound kg, unit := "kg" }
  else kgToLbs kg

/-! ## Dosing & quantity module (from `quantityCalculator`, `src/unnamed/part_002`) -/

structure FrequencyOption : Type where
  value : String
  label : String
  perDay : ℚ
deriving DecidableEq

def FREQUENCY_OPTIONS : List FrequencyOption :=
  [ { value := "daily", label := "Once daily", perDay := 1 },
    { value := "BID", label := "Twice daily (BID)", perDay := 2 },
    { value := "TID", label := "Three times daily (TID)", perDay := 3 },
    { value := "QID", label := "Four times daily (QID)", perDay := 4 },
    { value := "q4-6h", label := "Every 4-6 hours", perDay := 6 },
    { value := "q6h", label := "Every 6 hours", perDay := 4 },
    { value := "q8h", label := "Every 8 hours", perDay := 3 },
    { value := "q12h", label := "Every 12 hours", perDay := 2 },
    { value := "weekly", label := "Once weekly", perDay := 1 / 7 },
    { value := "prn", label := "As needed (PRN)", perDay := 6 } ]

inductive MedicationForm : Type
  | tablet
  | capsule
  | liquid
  | injection
  | topical
  | inhaler
deriving DecidableEq

/-- The runtime string of a `MedicationForm` value (TS string-literal union). -/
def MedicationForm.toKey : MedicationForm → String
  | .tablet => "tablet"
  | .capsule => "capsule"
  | .liquid => "liquid"
  | .injection => "injection"
  | .topical => "topical"
  | .inhaler => "inhaler"

/-- Table `FORM_UNITS` from the source, as the string-keyed record it is at
runtime (property order as written in the source). -/
def FORM_UNITS : List (String × String) :=
  [ ("tablet", "tablets"),
    ("capsule", "capsules"),
    ("liquid", "mL"),
    ("inhaler", "puffs"),
    ("injection", "doses"),
    ("topical", "applications") ]

/-- Function `getFrequencyPerDay`: catalog lookup, defaulting to 1 for unknown codes. -/
def getFrequencyPerDay (frequency : String) : ℚ :=
  match FREQUENCY_OPTIONS.find? (fun f => f.value == frequency) with
  | some o => o.perDay
  | none => 1

/-- Function `getUnitForForm`, computing `FORM_UNITS[form] || 'units'`. The TS parameter is
annotated `MedicationForm`, but the lookup is a string-keyed property access
with a `'units'` fallback, so it is modelled on strings. -/
def getUnitForForm (form : String) : String :=
  match FORM_UNITS.find? (fun p => p.1 == form) with
  | some p => p.2
  | none => "units"

/-! ### String scanning primitives

`String.prototype.includes` and the regexes of `parseDosesPerAdmin`,
modelled over character lists (see the module docstring for why maximal
munch is faithful here). -/

/-- Test `startsWith needle hay`: `needle` is a prefix of `hay`. -/
def startsWith : List Char → List Char → Bool
  | [], _ => true
  | _ :: _, [] => false
  | a :: as, b :: bs => a == b && startsWith as bs

/-- Case-insensitive prefix test (ASCII case folding, as the `/i` flag). -/
def startsWithCI : List Char → List Char → Bool
  | [], _ => true
  | _ :: _, [] => false
  | a :: as, b :: bs => a.toLower == b.toLower && startsWithCI as bs

/-- Substring containment on character lists. -/
def containsSub : List Char → List Char → Bool
  | hay, needle =>
    match hay with
    | [] => needle.isEmpty
    | _ :: t => startsWith needle hay || containsSub t needle

/-- Containment test `hay.includes pat` of JavaScript. -/
def strIncludes (hay pat : String) : Bool := containsSub hay.data pat.data

/-- The whitespace class `\s` of JS regexes (ASCII part; the Unicode space
characters never occur in the dosing strings considered). -/
def jsIsSpace (c : Char) : Bool :=
  c == ' ' || c == '\t' || c == '\n' || c == '\r' || c == '\x0b' || c == '\x0c'

/-- Numeric value of a digit span (`parseInt` on the matched digits). -/
def digitsToNat (ds : List Char) : Nat :=
  ds.foldl (fun n c => 10 * n + (c.toNat - 48)) 0

/-- Match `(\d+)\s*(w₁|w₂|…)` at the head of `l` (the `/i` flag on the word
alternatives); returns the number captured by the first group. -/
def matchSingleAt (words : List String) (l : List Char) : Option Nat :=
  let ds := l.takeWhile Char.isDigit
  if ds.isEmpty then none
  else
    let r := (l.dropWhile Char.isDigit).dropWhile jsIsSpace
    if words.any (fun w => startsWithCI w.data r) then some (digitsToNat ds) else none

/-- Match `(\d+)\s*-\s*(\d+)\s*(w₁|w₂|…)` at the head of `l`; returns the
numbers captured by the two groups. -/
def matchRangeAt (words : List String) (l : List Char) : Option (Nat × Nat) :=
  let ds₁ := l.takeWhile Char.isDigit
  if ds₁.isEmpty then none
  else
    match (l.dropWhile Char.isDigit).dropWhile jsIsSpace with
    | '-' :: r₁ =>
      let r₂ := r₁.dropWhile jsIsSpace
      let ds₂ := r₂.takeWhile Char.isDigit
      if ds₂.isEmpty then none
      else
        let r₃ := (r₂.dropWhile Char.isDigit).dropWhile jsIsSpace
        if words.any (fun w => startsWithCI w.data r₃) then
          some (digitsToNat ds₁, digitsToNat ds₂)
        else none
    | _ => none

/-- Leftmost match: try `m` at every start position, left to right.  (A JS
regex also attempts the empty tail, but every pattern used here requires at
least one digit, so it never matches there.) -/
def scanFor {α : Type} (m : List Char → Option α) : List Char → Option α
  | [] => none
  | c :: t =>
    match m (c :: t) with
    | some r => some r
    | none => scanFor m t

/-- The unit-word alternatives of the two general patterns. -/
def unitWords : List String := ["tablet", "capsule", "puff", "dose"]

/-- First match of `/(\d+)\s*-\s*(\d+)\s*(tablet|capsule|puff|dose)/i`. -/
def findRange (s : String) : Option (Nat × Nat) :=
  scanFor (matchRangeAt unitWords) s.data

/-- First match of `/(\d+)\s*(tablet|capsule|puff|dose)/i`. -/
def findSingle (s : String) : Option Nat :=
  scanFor (matchSingleAt unitWords) s.data

/-- First match of `/(\d+)\s*puff/i`. -/
def findPuff (s : String) : Option Nat :=
  scanFor (matchSingleAt ["puff"]) s.data

/-- Function `parseDosesPerAdmin` from the source. -/
def parseDosesPerAdmin (dosingString : String) (form : MedicationForm) : Nat :=
  match findRange dosingString with
  | some r => r.2
  | none =>
    match findSingle dosingString with
    | some n => n
    | none =>
      if form = .inhaler then
        match findPuff dosingString with
        | some n => n
        | none => 2
      else 1

/-- Upper-casing `toUpperCase` (character-wise ASCII upper-casing, as JS performs on
these strings). -/
def jsToUpper (s : String) : String := ⟨s.data.map Char.toUpper⟩

/-- Function `parseFrequencyFromDosing` from the source. -/
def parseFrequencyFromDosing (dosingString : String) : Option String :=
  let dosing := jsToUpper dosingString
  if strIncludes dosing "TID" || strIncludes dosing "THREE TIMES" then some "TID"
  else if strIncludes dosing "BID" || strIncludes dosing "TWICE" then some "BID"
  else if strIncludes dosing "QID" || strIncludes dosing "FOUR TIMES" then some "QID"
  else if strIncludes dosing "EVERY 4-6" || strIncludes dosing "Q4-6" then some "q4-6h"
  else if strIncludes dosing "EVERY 6" || strIncludes dosing "Q6H" then some "q6h"
  else if strIncludes dosing "EVERY 8" || strIncludes dosing "Q8H" then some "q8h"
  else if strIncludes dosing "EVERY 12" || strIncludes dosing "Q12H" then some "q12h"
  else if strIncludes dosing "WEEKLY" then some "weekly"
  else if strIncludes dosing "PRN" || strIncludes dosing "AS NEEDED" then some "prn"
  else if strIncludes dosing "DAILY" || strIncludes dosing "ONCE" then some "daily"
  else none

example : parseFrequencyFromDosing "500mg TWICE daily" = some "BID" := by decide

example : parseFrequencyFromDosing "every 4-6 hours PRN" = some "q4-6h" := by decide

example : parseFrequencyFromDosing "water" = none := by decide

example : findRange "1-2 tablets every 4-6 hours" = some (1, 2) := by decide

example : parseDosesPerAdmin "1-2 tablets every 4-6 hours" .tablet = 2 := by decide

example : parseDosesPerAdmin "2 puffs every 4-6 hours" .inhaler = 2 := by decide

example : parseDosesPerAdmin "500mg TID" .tablet = 1 := by decide

example : parseDosesPerAdmin "use as directed" .inhaler = 2 := by decide

structure QuantityResult : Type where
  quantity : ℤ
  unit : String
  isEstimate : Bool
  imperialEquivalent : Option ConversionResult
deriving DecidableEq

/-- Function `calculateQuantity` from the source. -/
def calculateQuantity (frequency : String) (durationDays dosesPerAdmin : ℚ)
    (form : MedicationForm) : QuantityResult :=
  let perDay := getFrequencyPerDay frequency
  let unit := getUnitForForm form.toKey
  let isEstimate := frequency == "prn" || frequency == "q4-6h"
  let rawQuantity := dosesPerAdmin * perDay * durationDays
  let quantity := ⌈rawQuantity⌉
  let imperialEquivalent :=
    if form = .liquid then some (getVolumeInSystem (quantity : ℚ) .imperial) else none
  { quantity := quantity, unit := unit, isEstimate := isEstimate,
    imperialEquivalent := imperialEquivalent }

example : calculateQuantity "TID" 10 1 .tablet =
    { quantity := 30, unit := "tablets", isEstimate := false, imperialEquivalent := none } := by
  rw [calculateQuantity, show getFrequencyPerDay "TID" = 3 from rfl]
  simp only [QuantityResult.mk.injEq]
  refine ⟨by rw [Int.ceil_eq_iff]; norm_num, rfl, rfl, rfl⟩

example : (calculateQuantity "prn" 5 2 .inhaler).quantity = 60 := by
  rw [calculateQuantity, show getFrequencyPerDay "prn" = 6 from rfl]
  rw [Int.ceil_eq_iff]; norm_num

/-! ## Helper lemmas -/

/-- Every catalog entry has a positive `perDay`, and the unknown-code
default is positive too. -/
theorem getFrequencyPerDay_pos (f : String) : 0 < getFrequencyPerDay f := by
  unfold getFrequencyPerDay
  cases h : FREQUENCY_OPTIONS.find? (fun o => o.value == f) with
  | none => simp
  | some o =>
    simp only
    have ho := List.mem_of_find?_eq_some h
    fin_cases ho <;> norm_num

/-! ## Claim theorems -/

/-- C1: for every frequency code, duration, doses-per-administration and
form, `calculateQuantity` returns the ceiling of
`dosesPerAdmin × perDay × durationDays`, the fixed form→unit mapping's
label, and an imperial equivalent (of the final integer quantity, via
`getVolumeInSystem`) exactly when the form is liquid; in particular
TID for 10 days at 1 dose per administration gives 30 tablets. -/
theorem C1_calculateQuantity_shape :
    (∀ (f : String) (d n : ℚ) (m : MedicationForm),
      (calculateQuantity f d n m).quantity = ⌈n * getFrequencyPerDay f * d⌉ ∧
      (calculateQuantity f d n m).unit = getUnitForForm m.toKey ∧
      some ((calculateQuantity f d n m).unit) =
        (FORM_UNITS.find? (fun p => p.1 == m.toKey)).map Prod.snd ∧
      (calculateQuantity f d n m).imperialEquivalent =
        (if m = MedicationForm.liquid
         then some (getVolumeInSystem ((calculateQuantity f d n m).quantity : ℚ) .imperial)
         else none)) ∧
    calculateQuantity "TID" 10 1 .tablet =
      { quantity := 30, unit := "tablets", isEstimate := false, imperialEquivalent := none } := by
  constructor
  · intro f d n m
    refine ⟨rfl, rfl, ?_, rfl⟩
    cases m <;> rfl
  · rw [calculateQuantity, show getFrequencyPerDay "TID" = 3 from rfl]
    simp only [QuantityResult.mk.injEq]
    refine ⟨by rw [Int.ceil_eq_iff]; norm_num, rfl, rfl, rfl⟩

/-- C2: `isEstimate` is true exactly for the codes `"prn"` and `"q4-6h"`,
independently of the other arguments; in particular
`calculateQuantity "prn" 5 2 inhaler = {60, "puffs", true}`. -/
theorem C2_calculateQuantity_isEstimate :
    (∀ (f : String) (d n : ℚ) (m : MedicationForm),
      ((calculateQuantity f d n m).isEstimate = true ↔ f = "prn" ∨ f = "q4-6h")) ∧
    calculateQuantity "prn" 5 2 .inhaler =
      { quantity := 60, unit := "puffs", isEstimate := true, imperialEquivalent := none } := by
  constructor
  · intro f d n m
    show (f == "prn" || f == "q4-6h") = true ↔ _
    simp [beq_iff_eq]
  · rw [calculateQuantity, show getFrequencyPerDay "prn" = 6 from rfl]
    simp only [QuantityResult.mk.injEq]
    refine ⟨by rw [Int.ceil_eq_iff]; norm_num, rfl, rfl, rfl⟩

/-- C3 counterexample: the claim quantifies over every input, but a negative
`durationDays` (a plain `number` in the source) makes the raw product
negative and `Math.ceil` keeps it negative: duration `-1` at one dose of a
once-daily medication yields quantity `-1 < 0`. -/
theorem C3_counterexample :
    (calculateQuantity "daily" (-1) 1 .tablet).quantity = -1 ∧
    (calculateQuantity "daily" (-1) 1 .tablet).quantity < 0 := by
  have h : (calculateQuantity "daily" (-1) 1 .tablet).quantity = -1 := by
    show ⌈(1 * getFrequencyPerDay "daily" * (-1) : ℚ)⌉ = -1
    rw [show getFrequencyPerDay "daily" = 1 from rfl, Int.ceil_eq_iff]; norm_num
  exact ⟨h, by rw [h]; norm_num⟩

/-- C3 (amended): for non-negative `durationDays` and `dosesPerAdmin` the
quantity is the ceiling of the non-negative raw product — an integer that is
never negative and never fractional — and zero duration yields zero. -/
theorem C3_quantity_nonneg_integral (f : String) (d n : ℚ) (m : MedicationForm)
    (hd : 0 ≤ d) (hn : 0 ≤ n) :
    0 ≤ (calculateQuantity f d n m).quantity ∧
    (calculateQuantity f d n m).quantity = ⌈n * getFrequencyPerDay f * d⌉ ∧
    (((calculateQuantity f d n m).quantity : ℚ)).den = 1 ∧
    (calculateQuantity f 0 n m).quantity = 0 := by
  refine ⟨?_, rfl, Rat.den_intCast _, ?_⟩
  · show 0 ≤ ⌈n * getFrequencyPerDay f * d⌉
    exact Int.ceil_nonneg
      (mul_nonneg (mul_nonneg hn (le_of_lt (getFrequencyPerDay_pos f))) hd)
  · show ⌈n * getFrequencyPerDay f * 0⌉ = 0
    simp

/-- Witness for C3 (amended), at `f = "TID"`, `d = 2`, `n = 1`. -/
theorem C3_witness :
    0 ≤ (calculateQuantity "TID" 2 1 .tablet).quantity ∧
    (calculateQuantity "TID" 2 1 .tablet).quantity = ⌈1 * getFrequencyPerDay "TID" * 2⌉ ∧
    (((calculateQuantity "TID" 2 1 .tablet).quantity : ℚ)).den = 1 ∧
    (calculateQuantity "TID" 0 1 .tablet).quantity = 0 :=
  C3_quantity_nonneg_integral "TID" 2 1 .tablet (by norm_num) (by norm_num)

/-- C4: an unrecognized frequency code resolves to 1 administration per day
(so `calculateQuantity` produces the once-daily quantity), and an
unrecognized form string falls back to the label `"units"`; neither lookup
can fail. -/
theorem C4_unknown_inputs_default (f s : String) (d n : ℚ) (m : MedicationForm)
    (hf : f ∉ FREQUENCY_OPTIONS.map FrequencyOption.value)
    (hs : s ∉ FORM_UNITS.map Prod.fst) :
    getFrequencyPerDay f = 1 ∧
    getUnitForForm s = "units" ∧
    (calculateQuantity f d n m).quantity = (calculateQuantity "daily" d n m).quantity := by
  have h1 : FREQUENCY_OPTIONS.find? (fun o => o.value == f) = none := by
    rw [List.find?_eq_none]
    intro o ho hof
    exact hf (List.mem_map.mpr ⟨o, ho, beq_iff_eq.mp hof⟩)
  have h2 : FORM_UNITS.find? (fun p => p.1 == s) = none := by
    rw [List.find?_eq_none]
    intro p hp hps
    exact hs (List.mem_map.mpr ⟨p, hp, beq_iff_eq.mp hps⟩)
  have hgf : getFrequencyPerDay f = 1 := by
    unfold getFrequencyPerDay
    rw [h1]
  refine ⟨hgf, ?_, ?_⟩
  · unfold getUnitForForm
    rw [h2]
  · show ⌈n * getFrequencyPerDay f * d⌉ = ⌈n * getFrequencyPerDay "daily" * d⌉
    rw [hgf, show getFrequencyPerDay "daily" = 1 from rfl]

/-- Witness for C4, at the unrecognized code `"xyz"` and form `"gel"`. -/
theorem C4_witness :
    getFrequencyPerDay "xyz" = 1 ∧
    getUnitForForm "gel" = "units" ∧
    (calculateQuantity "xyz" 7 2 .tablet).quantity =
      (calculateQuantity "daily" 7 2 .tablet).quantity :=
  C4_unknown_inputs_default "xyz" "gel" 7 2 .tablet (by decide) (by decide)

example : getVolumeInSystem 10 .imperial = { value := 2, unit := "tsp" } := by
  rw [getVolumeInSystem, if_neg (by decide)]
  norm_num [ML_PER_TBSP, ML_PER_TSP, ML_PER_FL_OZ, mlToTsp, smartRound]

example : getVolumeInSystem 60 .imperial = { value := 4, unit := "tbsp" } := by
  rw [getVolumeInSystem, if_neg (by decide)]
  norm_num [ML_PER_TBSP, ML_PER_TSP, ML_PER_FL_OZ, mlToTbsp, smartRound]

example : (getVolumeInSystem 240 .imperial).unit = "fl oz" := by
  rw [getVolumeInSystem, if_neg (by decide)]
  norm_num [ML_PER_TBSP, ML_PER_TSP, ML_PER_FL_OZ, mlToFlOz, smartRound]

/-- C5: the imperial branch of `getVolumeInSystem` picks its unit by the
ordered ladder "tablespoons `< 3` → tsp, else fluid ounces `< 4` → tbsp,
else fl oz", with the given concrete values; metric returns the value
smart-rounded with unit `"mL"`. -/
theorem C5_getVolumeInSystem_ladder :
    (∀ v : ℚ,
      getVolumeInSystem v .imperial =
        (if v / ML_PER_TBSP < 3 then mlToTsp v
         else if v / ML_PER_FL_OZ < 4 then mlToTbsp v
         else mlToFlOz v)) ∧
    getVolumeInSystem 10 .imperial = { value := 2, unit := "tsp" } ∧
    getVolumeInSystem 60 .imperial = { value := 4, unit := "tbsp" } ∧
    (getVolumeInSystem 240 .imperial).unit = "fl oz" ∧
    (∀ v : ℚ, getVolumeInSystem v .metric = { value := smartRound v, unit := "mL" }) := by
  refine ⟨fun v => rfl, ?_, ?_, ?_, fun v => rfl⟩
  · rw [getVolumeInSystem, if_neg (by decide)]
    norm_num [ML_PER_TBSP, ML_PER_TSP, ML_PER_FL_OZ, mlToTsp, smartRound]
  · rw [getVolumeInSystem, if_neg (by decide)]
    norm_num [ML_PER_TBSP, ML_PER_TSP, ML_PER_FL_OZ, mlToTbsp, smartRound]
  · rw [getVolumeInSystem, if_neg (by decide)]
    norm_num [ML_PER_TBSP, ML_PER_TSP, ML_PER_FL_OZ, mlToFlOz, smartRound]

/-- C6 counterexample: the claim demands 1-decimal rounding whenever
`|v| ≥ 10`, but the source tests `value >= 10` without an absolute value, so
the non-integer `v = -12.34` (with `|v| ≥ 10`) falls into the 2-decimal
branch and is returned as `-12.34`, not as the 1-decimal `-12.3`. -/
theorem C6_counterexample :
    ((-617 / 50 : ℚ)).den ≠ 1 ∧
    10 ≤ |(-617 / 50 : ℚ)| ∧
    smartRound (-617 / 50) = -617 / 50 ∧
    (jsRound ((-617 / 50) * 10) : ℚ) / 10 = -123 / 10 ∧
    smartRound (-617 / 50) ≠ (jsRound ((-617 / 50) * 10) : ℚ) / 10 := by
  have hden : ((-617 / 50 : ℚ)).den ≠ 1 := by norm_num [Rat.den]
  have habs : 10 ≤ |(-617 / 50 : ℚ)| := by
    rw [abs_of_neg (by norm_num)]
    norm_num
  have h2 : smartRound (-617 / 50) = -617 / 50 := by
    rw [smartRound, if_neg hden, if_neg (by norm_num), jsRound]
    have hf : ⌊(-617 / 50 * 100 + 1 / 2 : ℚ)⌋ = -1234 := by
      rw [Int.floor_eq_iff]; norm_num
    rw [hf]
    norm_num
  have h1 : (jsRound ((-617 / 50) * 10) : ℚ) / 10 = -123 / 10 := by
    rw [jsRound]
    have hf : ⌊(-617 / 50 * 10 + 1 / 2 : ℚ)⌋ = -123 := by
      rw [Int.floor_eq_iff]; norm_num
    rw [hf]
    norm_num
  exact ⟨hden, habs, h2, h1, by rw [h2, h1]; norm_num⟩

/-- C6 (amended): `smartRound` returns whole numbers unchanged, rounds
values `≥ 10` (without an absolute value — negative values always take the
2-decimal branch) to 1 decimal place and all other non-integers to 2
decimal places; each conversion applies it after its arithmetic. -/
theorem C6_smartRound_policy (v : ℚ) :
    (v.den = 1 → smartRound v = v) ∧
    (v.den ≠ 1 → 10 ≤ v → smartRound v = (jsRound (v * 10) : ℚ) / 10) ∧
    (v.den ≠ 1 → v < 10 → smartRound v = (jsRound (v * 100) : ℚ) / 100) ∧
    (mlToTsp v).value = smartRound (v / ML_PER_TSP) ∧
    (mlToTbsp v).value = smartRound (v / ML_PER_TBSP) ∧
    (mlToFlOz v).value = smartRound (v / ML_PER_FL_OZ) ∧
    (tspToMl v).value = smartRound (v * ML_PER_TSP) ∧
    (kgToLbs v).value = smartRound (v * LBS_PER_KG) := by
  refine ⟨?_, ?_, ?_, rfl, rfl, rfl, rfl, rfl⟩
  · intro h
    rw [smartRound, if_pos h]
  · intro h h10
    rw [smartRound, if_neg h, if_pos h10]
  · intro h h10
    rw [smartRound, if_neg h, if_neg (not_le.mpr h10)]

/-- Witness for C6 (amended), at `v = 5/2`. -/
theorem C6_witness :
    smartRound (5 / 2) = (jsRound ((5 / 2) * 100) : ℚ) / 100 :=
  (C6_smartRound_policy (5 / 2)).2.2.1 (by norm_num [Rat.den]) (by norm_num)

/-- C7: converting a volume from a unit to itself is the identity up to
smart rounding, and the mL→mL case returns the smart-rounded input directly
(no pivot round-trip). -/
theorem C7_convertVolume_identity :
    (∀ (x : ℚ) (u : VolumeUnit), (convertVolume x u u).value = smartRound x) ∧
    (∀ x : ℚ, convertVolume x .mL .mL = { value := smartRound x, unit := "mL" }) := by
  constructor
  · intro x u
    cases u with
    | mL => rfl
    | tsp =>
      show smartRound (x * ML_PER_TSP / ML_PER_TSP) = smartRound x
      rw [mul_div_cancel_right₀ x (show ML_PER_TSP ≠ 0 by norm_num [ML_PER_TSP])]
    | tbsp =>
      show smartRound (x * ML_PER_TBSP / ML_PER_TBSP) = smartRound x
      rw [mul_div_cancel_right₀ x (show ML_PER_TBSP ≠ 0 by norm_num [ML_PER_TBSP])]
    | flOz =>
      show smartRound (x * ML_PER_FL_OZ / ML_PER_FL_OZ) = smartRound x
      rw [mul_div_cancel_right₀ x (show ML_PER_FL_OZ ≠ 0 by norm_num [ML_PER_FL_OZ])]
  · intro x
    rfl

/-! ## Spec-side definitions for the parsing claims (C8–C10)

These transcribe the spec's wording (keyword precedence table, simplified
dosing parser) for comparison with the functions embedded from the
source. -/

/-- The spec's keyword precedence table (§4.2), in the exact order given
there: keyword fragments on the left, the resolved catalog code on the
right. -/
def freqKeywordTable : List (List String × String) :=
  [ (["TID", "THREE TIMES"], "TID"),
    (["BID", "TWICE"], "BID"),
    (["QID", "FOUR TIMES"], "QID"),
    (["EVERY 4-6", "Q4-6"], "q4-6h"),
    (["EVERY 6", "Q6H"], "q6h"),
    (["EVERY 8", "Q8H"], "q8h"),
    (["EVERY 12", "Q12H"], "q12h"),
    (["WEEKLY"], "weekly"),
    (["PRN", "AS NEEDED"], "prn"),
    (["DAILY", "ONCE"], "daily") ]

/-- First-match-wins scan of a keyword table against an (upper-cased)
dosing string. -/
def tableLookup (d : String) : List (List String × String) → Option String
  | [] => none
  | (ks, code) :: rest =>
    if ks.any (fun k => strIncludes d k) then some code else tableLookup d rest

/-- The spec's description of `parseFrequencyFromDosing`: upper-case the
text, then return the first table entry one of whose fragments occurs. -/
def firstFreqKeywordMatch (s : String) : Option String :=
  tableLookup (jsToUpper s) freqKeywordTable

/-- The spec's description of `parseDosesPerAdmin` (with the claims'
inhaler default of 2): range match → upper bound; else single match → that
number; else 2 for inhalers and 1 otherwise. -/
def specParseDosesPerAdmin (s : String) (form : MedicationForm) : Nat :=
  match findRange s with
  | some r => r.2
  | none =>
    match findSingle s with
    | some n => n
    | none => if form = .inhaler then 2 else 1

/-- The simplified inhaler-only parser of claim C10: the general range /
single matches when one exists, else 2. -/
def inhalerSimplified (s : String) : Nat :=
  match findRange s with
  | some r => r.2
  | none =>
    match findSingle s with
    | some n => n
    | none => 2

/-! ### Unreachability of the puff-specific pattern -/

/-- A match of the puff-only pattern at a position is also a match of the
general single pattern there (with the same captured number), since
`"puff"` is among the general pattern's unit words. -/
theorem matchSingleAt_of_puff (l : List Char) (n : Nat)
    (h : matchSingleAt ["puff"] l = some n) :
    matchSingleAt unitWords l = some n := by
  rw [matchSingleAt] at h ⊢
  by_cases h1 : (l.takeWhile Char.isDigit).isEmpty
  · rw [if_pos h1] at h
    exact absurd h (by simp)
  · rw [if_neg h1] at h ⊢
    by_cases h2 :
        (["puff"].any fun w =>
          startsWithCI w.data ((l.dropWhile Char.isDigit).dropWhile jsIsSpace)) = true
    · rw [if_pos h2] at h
      rw [if_pos ?_]
      · exact h
      · simp only [List.any_cons, List.any_nil, Bool.or_false] at h2
        simp [unitWords, List.any_cons, h2]
    · rw [if_neg h2] at h
      exact absurd h (by simp)

/-- If the general single pattern matches nowhere, the puff pattern matches
nowhere either. -/
theorem scanPuff_none (l : List Char)
    (h : scanFor (matchSingleAt unitWords) l = none) :
    scanFor (matchSingleAt ["puff"]) l = none := by
  induction l with
  | nil => rfl
  | cons c t ih =>
    rw [scanFor] at h ⊢
    cases hq : matchSingleAt unitWords (c :: t) with
    | some r => rw [hq] at h; exact absurd h (by simp)
    | none =>
      rw [hq] at h
      simp only at h
      cases hp : matchSingleAt ["puff"] (c :: t) with
      | some n =>
        have := matchSingleAt_of_puff (c :: t) n hp
        rw [this] at hq
        exact absurd hq (by simp)
      | none =>
        simp only
        exact ih h

/-- The inhaler-specific puff search in `parseDosesPerAdmin` is reached only
when the general single pattern found nothing, and then it finds nothing
either. -/
theorem findPuff_none_of_findSingle_none (s : String)
    (h : findSingle s = none) : findPuff s = none :=
  scanPuff_none s.data h

/-- C8: `parseFrequencyFromDosing` upper-cases its input and returns the
first catalog code (in the spec's exact precedence order) one of whose
keyword fragments occurs, `none` when no fragment matches; a string holding
both `"TWICE"` and `"daily"` resolves to `"BID"`. -/
theorem C8_parseFrequency_precedence :
    (∀ s : String, parseFrequencyFromDosing s = firstFreqKeywordMatch s) ∧
    parseFrequencyFromDosing "500mg TWICE daily" = some "BID" ∧
    (∀ s : String,
      (∀ pr ∈ freqKeywordTable, ∀ k ∈ pr.1, strIncludes (jsToUpper s) k = false) →
      parseFrequencyFromDosing s = none) := by
  have htab : ∀ (d : String) (t : List (List String × String)),
      (∀ pr ∈ t, ∀ k ∈ pr.1, strIncludes d k = false) → tableLookup d t = none := by
    intro d t
    induction t with
    | nil => intro _; rfl
    | cons pr rest ih =>
      intro h
      obtain ⟨ks, code⟩ := pr
      rw [tableLookup, if_neg, ih]
      · intro pr' h' k hk
        exact h pr' (List.mem_cons_of_mem _ h') k hk
      · simp only [List.any_eq_true, not_exists, not_and]
        intro k hk
        simp [h (ks, code) (List.mem_cons_self _ _) k hk]
  have heq : ∀ s : String, parseFrequencyFromDosing s = firstFreqKeywordMatch s := by
    intro s
    simp only [parseFrequencyFromDosing, firstFreqKeywordMatch, freqKeywordTable, tableLookup,
      List.any_cons, List.any_nil, Bool.or_false]
  refine ⟨heq, by decide, ?_⟩
  intro s h
  rw [heq, firstFreqKeywordMatch, htab (jsToUpper s) freqKeywordTable h]

/-- Witness for C8, at the fragment-free string `"water"`. -/
theorem C8_witness : parseFrequencyFromDosing "water" = none :=
  C8_parseFrequency_precedence.2.2 "water" (by decide)

/-- C9: `parseDosesPerAdmin` is total and resolves in the spec's order —
range match (upper bound), then single match, then the inhaler default 2,
then 1; `"1-2 tablets every 4-6 hours"` with form tablet gives the range's
upper bound 2. -/
theorem C9_parseDosesPerAdmin_order :
    (∀ (s : String) (m : MedicationForm),
      parseDosesPerAdmin s m = specParseDosesPerAdmin s m) ∧
    findRange "1-2 tablets every 4-6 hours" = some (1, 2) ∧
    parseDosesPerAdmin "1-2 tablets every 4-6 hours" .tablet = 2 := by
  refine ⟨?_, by decide, by decide⟩
  intro s m
  rw [parseDosesPerAdmin, specParseDosesPerAdmin]
  cases hr : findRange s with
  | some r => rfl
  | none =>
    simp only
    cases hs : findSingle s with
    | some n => rfl
    | none =>
      simp only
      by_cases hm : m = .inhaler
      · rw [if_pos hm, if_pos hm, findPuff_none_of_findSingle_none s hs]
      · rw [if_neg hm, if_neg hm]

/-- C10: the puff-specific branch of `parseDosesPerAdmin` is unreachable
(whenever the general single pattern finds nothing, so does the puff
pattern), hence for inhalers the function equals the simplified
range/single-or-2 parser. -/
theorem C10_inhaler_puff_unreachable :
    (∀ s : String, findSingle s = none → findPuff s = none) ∧
    (∀ s : String, parseDosesPerAdmin s .inhaler = inhalerSimplified s) := by
  constructor
  · exact findPuff_none_of_findSingle_none
  · intro s
    rw [parseDosesPerAdmin, inhalerSimplified]
    cases hr : findRange s with
    | some r => rfl
    | none =>
      simp only
      cases hs : findSingle s with
      | some n => rfl
      | none =>
        rw [findPuff_none_of_findSingle_none s hs]
        rfl

/-- Witness for C10, at `s = "use as directed"` (no pattern matches). -/
theorem C10_witness :
    findPuff "use as directed" = none ∧
    parseDosesPerAdmin "use as directed" .inhaler = inhalerSimplified "use as directed" :=
  ⟨C10_inhaler_puff_unreachable.1 "use as directed" (by decide),
   C10_inhaler_puff_unreachable.2 "use as directed"⟩

end LivnyHealth
